import Mathlib

/-!
Verification development for the Trends Box repository.

The repository is a content-generation web app.  The pieces embedded here are:

* the static outlet-reputation table and its lookup
  (src/src/App.tsx, constants section: RELIABILITY_SCORES, getReliabilityScore);
* the serverless generation orchestrator
  (src/netlify/functions/generate.ts, `handler`);
* the client-side generation pipeline
  (src/src/App.tsx, `handleGenerate`, `saveToHistory`, `buildPrompt` inlined at
  lines 260-262, DAILY_LIMIT at line 39);
* the usage-counter write rules of the two persistence routes
  (src/src/App.tsx `saveToHistory` and the sqlite route in src/unnamed/part_001).

External collaborators (search, LLM completion, image generation, JSON.parse,
URL parsing, encodeURIComponent) are modelled as oracle inputs or environment
functions: their outputs are inputs of the embedded pipeline, exactly at the
point where the source consumes them.
-/

namespace TrendsBox

/-! ### String helpers: models of the JavaScript builtins used by the source

All strings handled by the pipeline are ASCII, so character-wise
`Char.toLower` / `Char.toUpper` model `String.prototype.toLowerCase` /
`toUpperCase` faithfully. -/

/-- Model of JS `s.toLowerCase()` on ASCII strings. -/
def strLower (s : String) : String := String.mk (s.data.map Char.toLower)

/-- Substring membership on character lists: `needle` occurs somewhere in the list. -/
def containsSubL (needle : List Char) : List Char → Bool
  | [] => needle.isEmpty
  | c :: t => needle.isPrefixOf (c :: t) || containsSubL needle t

/-- Model of JS `hay.includes(needle)`. -/
def strIncludes (hay needle : String) : Bool := containsSubL needle.data hay.data

/-- Model of JS `s.replace(pat, "")`: removes the first occurrence of `pat`, if any. -/
def replaceFirstL (pat : List Char) : List Char → List Char
  | [] => []
  | c :: t =>
    if pat.isPrefixOf (c :: t) then (c :: t).drop pat.length
    else c :: replaceFirstL pat t

/-- Model of JS `s.split(sep)[0]` for the one-character separator used by the
source, which equals everything before the first dot. -/
def takeUntilDot (l : List Char) : List Char := l.takeWhile (fun c => c ≠ '.')

/-- Model of JS `s.charAt(0).toUpperCase() + s.slice(1)`. -/
def capitalizeStr (s : String) : String :=
  match s.data with
  | [] => ""
  | c :: t => String.mk (c.toUpper :: t)

/-- Model of the JS string-or-null idiom `s || d`: the empty string and null
both fall through to the default. -/
def jsOrDefault (s? : Option String) (d : String) : String :=
  match s? with
  | none => d
  | some s => if s = "" then d else s

/-! ### Outlet-reputation table (src/src/App.tsx constants section) -/

structure ReliabilityScore where
  name : String
  score : Nat
  description : String
deriving DecidableEq, Repr

/-- The static outlet-reputation table, verbatim from the source. -/
def RELIABILITY_SCORES : List ReliabilityScore := [
  { name := "Premium Times", score := 95,
    description := "High investigative standards and factual accuracy." },
  { name := "The Cable", score := 92,
    description := "Reliable real-time reporting and balanced views." },
  { name := "Channels TV", score := 94,
    description := "Leading broadcast news with strong editorial standards." },
  { name := "Punch", score := 88,
    description := "Widely read with strong historical presence." },
  { name := "Daily Trust", score := 87,
    description := "Strong regional coverage and reliable reporting." },
  { name := "Guardian Nigeria", score := 90,
    description := "Intellectual depth and high editorial quality." },
  { name := "Arise News", score := 91,
    description := "Global perspective on Nigerian news." },
  { name := "Vanguard", score := 85,
    description := "Popular news source with broad coverage." },
  { name := "Sahara Reporters", score := 80,
    description := "Aggressive reporting, occasionally controversial." },
  { name := "BellaNaija", score := 85,
    description := "Top-tier entertainment and lifestyle coverage." }]

/-- The match predicate used inside `getReliabilityScore`: bidirectional
case-insensitive substring containment, verbatim from the source
(`sourceName.toLowerCase().includes(s.name.toLowerCase()) ||
  s.name.toLowerCase().includes(sourceName.toLowerCase())`). -/
def matchesEntry (sourceName : String) (e : ReliabilityScore) : Bool :=
  strIncludes (strLower sourceName) (strLower e.name) ||
  strIncludes (strLower e.name) (strLower sourceName)

/-- src/src/App.tsx `getReliabilityScore`: first entry of the table (in
declaration order) that matches, defaulting to 70. -/
def getReliabilityScore (sourceName : String) : Nat :=
  match RELIABILITY_SCORES.find? (fun s => matchesEntry sourceName s) with
  | some s => s.score
  | none => 70

/-- Modelled from the spec: the spec describes the reliability lookup as a
"longest-match substring lookup, default 70".  This definition follows the
spec wording (among the matching entries, take one with the longest name) and
is compared against the implemented `getReliabilityScore`. -/
def getReliabilityScoreLongest (sourceName : String) : Nat :=
  let matching := RELIABILITY_SCORES.filter (fun e => matchesEntry sourceName e)
  match matching with
  | [] => 70
  | x :: t =>
    (t.foldl (fun best e => if e.name.length > best.name.length then e else best) x).score

/-! ### Serverless generation orchestrator (src/netlify/functions/generate.ts)

The handler body after request parsing is embedded.  External calls are
oracle inputs: `searchResult` is the outcome of `tvly.search` (an exception or
a result list), `llmResult` is the outcome of `groq.chat.completions.create`
(an exception or the returned message content, which may be null), and
`imgResult` is the outcome of the Gemini image call (an exception, or whether
an `inlineData` part was found and its base64 payload).  `JSON.parse`,
`new URL(u).hostname` and `encodeURIComponent` are JS builtins supplied by the
environment record.  The `context` string fed to the LLM prompt only
parameterises the external completion call, so it is not reconstructed. -/

structure SearchResult where
  title : String
  url : String
  content : String
deriving DecidableEq, Repr

/-- A reconciled source entry as built by the handler search step. -/
structure Source where
  id : Nat
  name : String
  platform : String
  url : String
deriving DecidableEq, Repr

/-- The fields of the model-returned JSON object that the handler reads.
`none` models an absent (or, for `relevantSourceIds`, non-array) field. -/
structure ModelData where
  title : Option String
  excerpt : Option String
  content : Option String
  relevantSourceIds : Option (List Nat)
deriving DecidableEq, Repr

/-- The JSON body of a successful handler response:
`{ ...data, sources: filteredSources, imageUrl }`. -/
structure HandlerResponse where
  title : Option String
  excerpt : Option String
  content : Option String
  relevantSourceIds : Option (List Nat)
  sources : List Source
  imageUrl : String
deriving DecidableEq, Repr

/-- The JS builtins the handler uses, as environment functions. -/
structure Env where
  urlHostname : String → String
  encodeURI : String → String
  jsonParse : String → Except String ModelData

/-- Verbatim from the handler: the pretty-name map for Nigerian news domains. -/
def platformMap : List (String × String) := [
  ("punchng", "The Punch"),
  ("vanguardngr", "Vanguard"),
  ("dailypost", "Daily Post"),
  ("premiumtimesng", "Premium Times"),
  ("guardian", "The Guardian NG"),
  ("independent", "Independent"),
  ("thenationonlineng", "The Nation"),
  ("thisdaylive", "ThisDay")]

/-- The handler platform-name derivation:
`url.hostname.replace("www.", "").split(".")[0]` mapped through
`platformMap`, defaulting to capitalisation. -/
def platformOf (host : String) : String :=
  let platform := String.mk (takeUntilDot (replaceFirstL "www.".data host.data))
  match platformMap.lookup platform with
  | some pretty => pretty
  | none => capitalizeStr platform

/-- The handler search step source construction:
`searchResult.results.map((r, i) => ({ id: i, name: r.title, platform: ..., url: r.url }))`. -/
def mkSources (env : Env) (rs : List SearchResult) : List Source :=
  rs.enum.map (fun p =>
    { id := p.1, name := p.2.title,
      platform := platformOf (env.urlHostname p.2.url), url := p.2.url })

/-- The handler search gate (line 42):
`prompt.toLowerCase().includes("find the latest news") || prompt.toLowerCase().includes("latest news")`. -/
def wantsSearch (prompt : String) : Bool :=
  strIncludes (strLower prompt) "find the latest news" ||
  strIncludes (strLower prompt) "latest news"

/-- The `sources` value the handler holds after the search step:
empty unless the gate fired and the search call succeeded (search exceptions
are swallowed by the inner try/catch). -/
def retrievedSources (env : Env) (inp_searchResult : Except String (List SearchResult))
    (inp_prompt : String) : List Source :=
  if wantsSearch inp_prompt then
    match inp_searchResult with
    | Except.ok rs => mkSources env rs
    | Except.error _ => []
  else []

/-- Handler lines 110-118: filter the sources by the model-returned relevant
ids when that field is an array, then fall back to the first search hit when
the filtered list is empty but search hits exist. -/
def reconcileSources (sources : List Source) (ids? : Option (List Nat)) : List Source :=
  let filtered :=
    match ids? with
    | some ids => sources.filter (fun s => ids.contains s.id)
    | none => sources
  if filtered.length = 0 ∧ 0 < sources.length then sources.take 1 else filtered

/-- Handler line 121: the deterministic fallback image URL,
`https://picsum.photos/seed/${encodeURIComponent(data.title || "news")}/1200/630`. -/
def picsumUrl (env : Env) (title? : Option String) : String :=
  "https://picsum.photos/seed/" ++ env.encodeURI (jsOrDefault title? "news") ++ "/1200/630"

/-- Handler lines 120-144: the image step.  The Gemini call happens only when
a key is configured; any failure, or the absence of an `inlineData` part,
leaves the fallback URL in place. -/
def imageUrlOf (env : Env) (geminiKey : Option String)
    (imgResult : Except String (Option String)) (title? : Option String) : String :=
  match geminiKey with
  | none => picsumUrl env title?
  | some _ =>
    match imgResult with
    | Except.ok (some b64) => "data:image/png;base64," ++ b64
    | Except.ok none => picsumUrl env title?
    | Except.error _ => picsumUrl env title?

/-- The handler error body when GROQ or TAVILY keys are missing. -/
def missingKeysMsg : String :=
  "Missing API Keys. Please ensure GROQ_API_KEY and TAVILY_API_KEY are set in Netlify environment variables."

/-- The oracle inputs of one handler invocation. -/
structure HandlerInput where
  prompt : String
  groqKey : Option String
  tavilyKey : Option String
  geminiKey : Option String
  searchResult : Except String (List SearchResult)
  llmResult : Except String (Option String)
  imgResult : Except String (Option String)

/-- Which external calls one handler invocation performed. -/
structure Effects where
  searchCalled : Bool
  llmCalled : Bool
  imageCalled : Bool
deriving DecidableEq, Repr

/-- src/netlify/functions/generate.ts `handler`, after body parsing.  An
`Except.error` result models the 500 error response produced either by the
missing-keys check or by the outer try/catch (which receives completion-call
exceptions and `JSON.parse` exceptions). -/
def handler (env : Env) (inp : HandlerInput) : Except String HandlerResponse × Effects :=
  if inp.groqKey.isNone || inp.tavilyKey.isNone then
    (Except.error missingKeysMsg,
     { searchCalled := false, llmCalled := false, imageCalled := false })
  else
    let doSearch := wantsSearch inp.prompt
    let sources := retrievedSources env inp.searchResult inp.prompt
    match inp.llmResult with
    | Except.error e =>
      (Except.error e, { searchCalled := doSearch, llmCalled := true, imageCalled := false })
    | Except.ok content? =>
      match env.jsonParse (jsOrDefault content? "\x7b\x7d") with
      | Except.error e =>
        (Except.error e, { searchCalled := doSearch, llmCalled := true, imageCalled := false })
      | Except.ok data =>
        (Except.ok
          { title := data.title, excerpt := data.excerpt, content := data.content,
            relevantSourceIds := data.relevantSourceIds,
            sources := reconcileSources sources data.relevantSourceIds,
            imageUrl := imageUrlOf env inp.geminiKey inp.imgResult data.title },
         { searchCalled := doSearch, llmCalled := true,
           imageCalled := inp.geminiKey.isSome })

/-! ### Client-side pipeline (src/src/App.tsx) -/

inductive GenerationType where
  | blog
  | social
deriving DecidableEq, Repr

inductive Category where
  | Politics
  | Sports
  | Entertainment
  | Technology
  | General
deriving DecidableEq, Repr

/-- The string interpolated for `${genType}`. -/
def genTypeName : GenerationType → String
  | GenerationType.blog => "blog"
  | GenerationType.social => "social"

/-- The string interpolated for `${category}`. -/
def categoryName : Category → String
  | Category.Politics => "Politics"
  | Category.Sports => "Sports"
  | Category.Entertainment => "Entertainment"
  | Category.Technology => "Technology"
  | Category.General => "General"

/-- The per-type stylistic suffix of the client prompt. -/
def styleSuffix : GenerationType → String
  | GenerationType.social =>
    "Keep it extremely minimal: just a catchy title and 1-2 sentences of key details."
  | GenerationType.blog =>
    "Provide a full, detailed blog post with an attractive title and human-like delivery."

/-- src/src/App.tsx lines 260-262: the prompt the client builds.  A non-empty
`manualInput` (JS truthiness) selects the explicit-guidance template, otherwise
the find-latest-news template. -/
def buildPrompt (manualInput : String) (genType : GenerationType) (category : Category) : String :=
  if manualInput ≠ "" then
    "Generate a " ++ genTypeName genType ++ " post about: " ++ manualInput ++
    ". Category: " ++ categoryName category ++
    ". Focus on Nigerian context if applicable. " ++ styleSuffix genType
  else
    "Find the latest news in " ++ categoryName category ++
    " from popular Nigerian sources and generate a " ++ genTypeName genType ++
    " post. " ++ styleSuffix genType

/-- src/src/App.tsx line 39. -/
def DAILY_LIMIT : Nat := 20

/-- An element of the `sources` array of the client LLM response JSON. -/
structure ClientSource where
  name : String
  url : String
deriving DecidableEq, Repr

/-- The fields of the client LLM response JSON that `handleGenerate` reads;
`none` models an absent field. -/
structure ClientData where
  title : Option String
  excerpt : Option String
  content : Option String
  sources : Option (List ClientSource)
deriving DecidableEq, Repr

/-- src/src/types.ts `NewsSource` as populated by the client
(`{...s, reliabilityScore: getReliabilityScore(s.name)}`). -/
structure NewsSource where
  name : String
  url : String
  reliabilityScore : Nat
deriving DecidableEq, Repr

/-- src/src/types.ts `GenerationRecord` as constructed by `handleGenerate`;
fields copied from the parsed model output may be absent. -/
structure GenerationRecord where
  id : String
  title : Option String
  excerpt : Option String
  content : Option String
  type : GenerationType
  category : Category
  imageUrl : String
  sources : List NewsSource
  timestamp : String
deriving DecidableEq, Repr

/-- The JS builtins the client pipeline uses. -/
structure ClientEnv where
  jsonParse : String → Except String ClientData

/-- The oracle inputs of one `handleGenerate` invocation.  `llmResult` is the
outcome of the Gemini `generateContent` call (`response.text` may be absent);
`imgResult` is the image call outcome as for the handler; `hasSession` and
`saveOk` are the outcomes of the Supabase session lookup and history insert
inside `saveToHistory`; `newId` and `now` stand for `Math.random().toString(36)`
and `new Date().toISOString()`. -/
structure ClientInput where
  usageCount : Nat
  manualInput : String
  genType : GenerationType
  category : Category
  llmResult : Except String (Option String)
  imgResult : Except String (Option String)
  hasSession : Bool
  saveOk : Bool
  newId : String
  now : String

inductive ClientOutcome where
  | quotaExceeded
  | failed
  | success (record : GenerationRecord)
deriving DecidableEq, Repr

/-- Observable effects of one `handleGenerate` invocation. `usageWrite` is the
absolute value upserted into the `usage` row (App.tsx line 176:
`count: usageCount + 1`), when that write is attempted. -/
structure ClientEffects where
  llmCalled : Bool
  imageCalled : Bool
  savedRecord : Option GenerationRecord
  usageWrite : Option Nat
  localUsageCount : Nat
deriving DecidableEq, Repr

/-- src/src/App.tsx `handleGenerate` (lines 243-351) together with
`saveToHistory` (lines 145-187).  The built prompt only parameterises the
external LLM call, whose outcome is the `llmResult` oracle.  The quota gate
rejects before any external call; a completion failure or a `JSON.parse`
exception lands in the catch block (alert, no save, no usage write); on
success the record is shown, inserted into history when a session exists and
the insert succeeds, and only then is the usage upsert attempted with the
stale client-side snapshot `usageCount + 1`; the local counter is bumped
regardless of persistence. -/
def handleGenerate (env : ClientEnv) (inp : ClientInput) : ClientOutcome × ClientEffects :=
  if inp.usageCount ≥ DAILY_LIMIT then
    (ClientOutcome.quotaExceeded,
     { llmCalled := false, imageCalled := false, savedRecord := none,
       usageWrite := none, localUsageCount := inp.usageCount })
  else
    match inp.llmResult with
    | Except.error _ =>
      (ClientOutcome.failed,
       { llmCalled := true, imageCalled := false, savedRecord := none,
         usageWrite := none, localUsageCount := inp.usageCount })
    | Except.ok text? =>
      match env.jsonParse (jsOrDefault text? "\x7b\x7d") with
      | Except.error _ =>
        (ClientOutcome.failed,
         { llmCalled := true, imageCalled := false, savedRecord := none,
           usageWrite := none, localUsageCount := inp.usageCount })
      | Except.ok data =>
        let imageUrl :=
          match inp.imgResult with
          | Except.ok (some b64) => "data:image/png;base64," ++ b64
          | _ => ""
        let enriched := (data.sources.getD []).map
          (fun s => { name := s.name, url := s.url,
                      reliabilityScore := getReliabilityScore s.name })
        let record : GenerationRecord :=
          { id := inp.newId, title := data.title, excerpt := data.excerpt,
            content := data.content, type := inp.genType, category := inp.category,
            imageUrl := imageUrl, sources := enriched, timestamp := inp.now }
        let saved := inp.hasSession && inp.saveOk
        (ClientOutcome.success record,
         { llmCalled := true, imageCalled := true,
           savedRecord := if saved then some record else none,
           usageWrite := if saved then some (inp.usageCount + 1) else none,
           localUsageCount := inp.usageCount + 1 })

/-! ### Usage-counter write rules of the two persistence routes -/

/-- The Supabase `usage` upsert issued by `saveToHistory` (App.tsx lines
170-179): insert-or-overwrite on conflict of `(user_id, date)` with the
client-supplied absolute `count` value.  The stored value does not enter the
computation. -/
def supabaseUsageUpsert (_stored : Option Nat) (value : Nat) : Nat := value

/-- The absolute count the client supplies: `count: usageCount + 1`, where
`usageCount` is the React state snapshot read before the request. -/
def clientUsageValue (snapshot : Nat) : Nat := snapshot + 1

/-- The sqlite route (src/unnamed/part_001 lines 79-83):
`INSERT INTO usage (date, count) VALUES (?, 1) ON CONFLICT(date) DO UPDATE SET
count = count + 1` — an atomic increment-or-insert computed from the stored
value inside the store. -/
def sqliteUsageUpsert : Option Nat → Nat
  | none => 1
  | some c => c + 1

/-! ### Concrete sample environments and inputs used to evaluate the pipeline -/

/-- Hostname stub standing for `new URL(u).hostname` on the sample URLs. -/
def stubHost : String → String := fun _ => "punchng.com"

/-- Identity stub for `encodeURIComponent`: on the alphanumeric sample seeds
the real builtin is the identity. -/
def stubEncode : String → String := fun s => s

/-- A `JSON.parse` stub that parses the fixed raw payload `RAW` to the given
object and rejects everything else. -/
def parseAs (d : ModelData) : String → Except String ModelData :=
  fun s => if s = "RAW" then Except.ok d else Except.error "parse error"

def envFor (d : ModelData) : Env :=
  { urlHostname := stubHost, encodeURI := stubEncode, jsonParse := parseAs d }

/-- A `JSON.parse` stub that behaves like the real builtin on the two inputs it
receives: the literal empty object parses to the all-absent object, anything
else is rejected. -/
def parseEmptyObj : String → Except String ModelData :=
  fun s =>
    if s = "\x7b\x7d" then
      Except.ok { title := none, excerpt := none, content := none, relevantSourceIds := none }
    else Except.error "parse error"

def envEmptyObj : Env :=
  { urlHostname := stubHost, encodeURI := stubEncode, jsonParse := parseEmptyObj }

/-- Client-side `JSON.parse` stub analogous to `parseAs`. -/
def cparseAs (d : ClientData) : String → Except String ClientData :=
  fun s => if s = "RAW" then Except.ok d else Except.error "parse error"

def cenvFor (d : ClientData) : ClientEnv := { jsonParse := cparseAs d }

def cenvAny : ClientEnv :=
  cenvFor { title := none, excerpt := none, content := none, sources := none }

/-- A client request arriving with the daily quota already consumed. -/
def cinpQuota : ClientInput :=
  { usageCount := 20, manualInput := "", genType := GenerationType.blog,
    category := Category.General, llmResult := Except.ok none,
    imgResult := Except.ok none, hasSession := true, saveOk := true,
    newId := "id0", now := "t0" }

def rsC2 : List SearchResult :=
  [{ title := "T1", url := "https://punchng.com/a", content := "C1" },
   { title := "T2", url := "https://guardian.ng/b", content := "C2" }]

def dataC2 : ModelData :=
  { title := some "T1", excerpt := some "E1", content := some "B1",
    relevantSourceIds := some [1] }

def envC2 : Env := envFor dataC2

def inpC2 : HandlerInput :=
  { prompt := "latest news", groqKey := some "g", tavilyKey := some "t",
    geminiKey := none, searchResult := Except.ok rsC2,
    llmResult := Except.ok (some "RAW"), imgResult := Except.ok none }

def respC2 : HandlerResponse :=
  { title := some "T1", excerpt := some "E1", content := some "B1",
    relevantSourceIds := some [1],
    sources := [{ id := 1, name := "T2", platform := "The Punch",
                  url := "https://guardian.ng/b" }],
    imageUrl := "https://picsum.photos/seed/T1/1200/630" }

/-- A handler invocation whose completion call throws. -/
def inpC3 : HandlerInput :=
  { prompt := "hello", groqKey := some "g", tavilyKey := some "t",
    geminiKey := none, searchResult := Except.ok [],
    llmResult := Except.error "llm down", imgResult := Except.ok none }

/-- A client invocation whose completion returns unparseable content. -/
def cinpC3 : ClientInput :=
  { usageCount := 0, manualInput := "", genType := GenerationType.blog,
    category := Category.General, llmResult := Except.ok (some "BAD"),
    imgResult := Except.ok none, hasSession := true, saveOk := true,
    newId := "id3", now := "t3" }

/-- A handler invocation whose completion returns malformed JSON. -/
def inpC4 : HandlerInput :=
  { prompt := "hello", groqKey := some "g", tavilyKey := some "t",
    geminiKey := none, searchResult := Except.ok [],
    llmResult := Except.ok (some "not json"), imgResult := Except.ok none }

/-- A handler invocation whose completion returns null content, so the code
parses the literal empty object and every field is absent. -/
def inpC4w : HandlerInput :=
  { prompt := "hello", groqKey := some "g", tavilyKey := some "t",
    geminiKey := none, searchResult := Except.ok [],
    llmResult := Except.ok none, imgResult := Except.ok none }

/-- Client-side `JSON.parse` stub behaving like the builtin on the two inputs
it receives: the literal empty object parses to the all-absent object,
anything else is rejected. -/
def cparseEmptyObj : String → Except String ClientData :=
  fun s =>
    if s = "\x7b\x7d" then
      Except.ok { title := none, excerpt := none, content := none, sources := none }
    else Except.error "parse error"

def cenvEmptyObj : ClientEnv := { jsonParse := cparseEmptyObj }

/-- A client invocation whose completion returns null content, so the code
parses the literal empty object and every field is absent. -/
def cinpC4w : ClientInput :=
  { usageCount := 0, manualInput := "", genType := GenerationType.blog,
    category := Category.General, llmResult := Except.ok none,
    imgResult := Except.ok none, hasSession := true, saveOk := true,
    newId := "id4", now := "t4" }

/-- A client invocation whose completion returns malformed JSON. -/
def cinpC4bad : ClientInput :=
  { usageCount := 0, manualInput := "", genType := GenerationType.blog,
    category := Category.General, llmResult := Except.ok (some "BAD"),
    imgResult := Except.ok none, hasSession := true, saveOk := true,
    newId := "id4b", now := "t4b" }

/-- A handler invocation whose prompt was built from the explicit guidance
`latest news` — the substring gate fires on it. -/
def inpC5cx : HandlerInput :=
  { prompt := buildPrompt "latest news" GenerationType.social Category.Technology,
    groqKey := some "g", tavilyKey := some "t", geminiKey := none,
    searchResult := Except.ok [], llmResult := Except.ok none,
    imgResult := Except.ok none }

/-- A handler invocation whose prompt was built from the guidance of the spec
scenario (`new telecom tariffs`) — the substring gate stays off. -/
def inpC5w : HandlerInput :=
  { prompt := buildPrompt "new telecom tariffs" GenerationType.social Category.Technology,
    groqKey := some "g", tavilyKey := some "t", geminiKey := none,
    searchResult := Except.ok [], llmResult := Except.ok none,
    imgResult := Except.ok none }

def cdataC8 : ClientData :=
  { title := some "Abc", excerpt := some "E", content := some "B",
    sources := some [] }

def cenvC8 : ClientEnv := cenvFor cdataC8

/-- A client invocation where the completion succeeds and the image call throws. -/
def cinpC8 : ClientInput :=
  { usageCount := 0, manualInput := "", genType := GenerationType.blog,
    category := Category.General, llmResult := Except.ok (some "RAW"),
    imgResult := Except.error "img down", hasSession := true, saveOk := true,
    newId := "id8", now := "t8" }

/-- The record the client produces on `cinpC8`: the image field is left empty. -/
def recC8 : GenerationRecord :=
  { id := "id8", title := some "Abc", excerpt := some "E", content := some "B",
    type := GenerationType.blog, category := Category.General, imageUrl := "",
    sources := [], timestamp := "t8" }

def dataC8s : ModelData :=
  { title := some "Abc", excerpt := none, content := none, relevantSourceIds := none }

def envC8w : Env := envFor dataC8s

/-- A handler invocation where search AND image both fail while the completion
succeeds. -/
def inpC8w : HandlerInput :=
  { prompt := "latest news", groqKey := some "g", tavilyKey := some "t",
    geminiKey := some "gk", searchResult := Except.error "search down",
    llmResult := Except.ok (some "RAW"), imgResult := Except.error "img down" }

/-- A client invocation where the completion succeeds and the image call
returns no inline image part. -/
def cinpC8w : ClientInput :=
  { usageCount := 0, manualInput := "x", genType := GenerationType.social,
    category := Category.Technology, llmResult := Except.ok (some "RAW"),
    imgResult := Except.ok none, hasSession := true, saveOk := true,
    newId := "id8w", now := "t8w" }

def cenvC9 : ClientEnv :=
  cenvFor { title := some "T", excerpt := none, content := none, sources := some [] }

/-- First of two concurrent generations by the same user, both issued with the
usage snapshot 0. -/
def cinpC9a : ClientInput :=
  { usageCount := 0, manualInput := "", genType := GenerationType.blog,
    category := Category.General, llmResult := Except.ok (some "RAW"),
    imgResult := Except.ok none, hasSession := true, saveOk := true,
    newId := "id9a", now := "t9" }

/-- Second concurrent generation, same user, same snapshot 0. -/
def cinpC9b : ClientInput :=
  { usageCount := 0, manualInput := "", genType := GenerationType.blog,
    category := Category.General, llmResult := Except.ok (some "RAW"),
    imgResult := Except.ok none, hasSession := true, saveOk := true,
    newId := "id9b", now := "t9" }

def rsC10 : List SearchResult :=
  [{ title := "T1", url := "https://punchng.com/a", content := "C1" }]

def dataC10 : ModelData :=
  { title := some "T1", excerpt := some "E1", content := some "B1",
    relevantSourceIds := some [0] }

def envC10 : Env := envFor dataC10

def inpC10 : HandlerInput :=
  { prompt := "latest news", groqKey := some "g", tavilyKey := some "t",
    geminiKey := none, searchResult := Except.ok rsC10,
    llmResult := Except.ok (some "RAW"), imgResult := Except.ok none }

def respC10 : HandlerResponse :=
  { title := some "T1", excerpt := some "E1", content := some "B1",
    relevantSourceIds := some [0],
    sources := [{ id := 0, name := "T1", platform := "The Punch",
                  url := "https://punchng.com/a" }],
    imageUrl := "https://picsum.photos/seed/T1/1200/630" }

/-! ### Helper lemmas about the reconciliation step -/

theorem reconcileSources_nil (ids? : Option (List Nat)) :
    reconcileSources [] ids? = [] := by
  cases ids? <;> simp [reconcileSources]

theorem reconcileSources_some (l : List Source) (ids : List Nat) :
    reconcileSources l (some ids) =
      if l.filter (fun s => ids.contains s.id) = [] then l.take 1
      else l.filter (fun s => ids.contains s.id) := by
  show (if (l.filter (fun s => ids.contains s.id)).length = 0 ∧ 0 < l.length
        then l.take 1 else l.filter (fun s => ids.contains s.id)) = _
  by_cases hf : l.filter (fun s => ids.contains s.id) = []
  · rw [if_pos hf]
    cases l with
    | nil =>
      rw [if_neg (by simp)]
      simp [hf]
    | cons a t =>
      rw [if_pos ⟨by rw [hf]; rfl, by simp⟩]
  · rw [if_neg hf, if_neg]
    intro hcon
    exact hf (List.length_eq_zero.mp hcon.1)

theorem reconcileSources_sublist (l : List Source) (ids? : Option (List Nat)) :
    List.Sublist (reconcileSources l ids?) l := by
  unfold reconcileSources
  cases ids? with
  | none =>
    dsimp only
    split
    · exact List.take_sublist 1 l
    · exact List.Sublist.refl l
  | some ids =>
    dsimp only
    split
    · exact List.take_sublist 1 l
    · exact List.filter_sublist l

theorem reconcileSources_ne_nil (l : List Source) (ids? : Option (List Nat)) (h : l ≠ []) :
    reconcileSources l ids? ≠ [] := by
  obtain ⟨a, t, rfl⟩ : ∃ a t, l = a :: t := by
    cases l with
    | nil => exact absurd rfl h
    | cons a t => exact ⟨a, t, rfl⟩
  unfold reconcileSources
  cases ids? with
  | none =>
    dsimp only
    split
    · simp
    · simp
  | some ids =>
    dsimp only
    split
    · simp
    · next hcond =>
      intro hnil
      exact hcond ⟨by rw [hnil]; rfl, by simp⟩

theorem mkSources_length (env : Env) (rs : List SearchResult) :
    (mkSources env rs).length = rs.length := by
  simp [mkSources]

theorem mkSources_ne_nil (env : Env) (rs : List SearchResult) (h : rs ≠ []) :
    mkSources env rs ≠ [] := by
  intro hcon
  have hlen := congrArg List.length hcon
  rw [mkSources_length] at hlen
  simp at hlen
  exact h hlen

theorem mkSources_map_id (env : Env) (rs : List SearchResult) :
    (mkSources env rs).map Source.id = List.range rs.length := by
  unfold mkSources
  rw [List.map_map]
  exact List.enum_map_fst rs

theorem mkSources_nodup (env : Env) (rs : List SearchResult) :
    (mkSources env rs).Nodup := by
  apply List.Nodup.of_map Source.id
  rw [mkSources_map_id]
  exact List.nodup_range rs.length

theorem retrievedSources_nodup (env : Env) (sr : Except String (List SearchResult))
    (p : String) : (retrievedSources env sr p).Nodup := by
  unfold retrievedSources
  split
  · cases sr with
    | ok rs => exact mkSources_nodup env rs
    | error e => exact List.nodup_nil
  · exact List.nodup_nil

theorem retrievedSources_of_ok (env : Env) (rs : List SearchResult) (p : String)
    (hw : wantsSearch p = true) :
    retrievedSources env (Except.ok rs) p = mkSources env rs := by
  simp [retrievedSources, hw]

theorem retrievedSources_of_off (env : Env) (sr : Except String (List SearchResult))
    (p : String) (hw : wantsSearch p = false) :
    retrievedSources env sr p = [] := by
  simp [retrievedSources, hw]

/-- Inversion: a successful handler response carries exactly the reconciled
sources of the run, keyed by the relevant ids it also carries. -/
theorem handler_ok_sources (env : Env) (inp : HandlerInput) (resp : HandlerResponse)
    (h : (handler env inp).fst = Except.ok resp) :
    resp.sources =
      reconcileSources (retrievedSources env inp.searchResult inp.prompt)
        resp.relevantSourceIds := by
  unfold handler at h
  by_cases hk : (inp.groqKey.isNone || inp.tavilyKey.isNone) = true
  · rw [if_pos hk] at h
    simp at h
  · rw [if_neg hk] at h
    rcases hl : inp.llmResult with e | c? <;> rw [hl] at h <;> simp at h
    rcases hp : env.jsonParse (jsOrDefault c? "\x7b\x7d") with e | data <;> rw [hp] at h <;>
      simp at h
    subst h
    rfl

/-! ### Claim theorems -/

/-- C1: when the usage count of the caller for today has reached the daily
limit of 20, `handleGenerate` rejects with the quota alert before any outside
API call (the LLM completion — which carries the search tool — and the image
call are never made), no record is produced, nothing is saved, and no usage
write happens. -/
theorem quota_rejection_blocks_api_calls (env : ClientEnv) (inp : ClientInput)
    (h : inp.usageCount ≥ DAILY_LIMIT) :
    DAILY_LIMIT = 20 ∧
    handleGenerate env inp =
      (ClientOutcome.quotaExceeded,
       { llmCalled := false, imageCalled := false, savedRecord := none,
         usageWrite := none, localUsageCount := inp.usageCount }) := by
  refine ⟨rfl, ?_⟩
  unfold handleGenerate
  rw [if_pos h]

/-- Witness for C1 at a concrete request with the quota consumed. -/
theorem quota_rejection_blocks_api_calls_applied :
    DAILY_LIMIT = 20 ∧
    handleGenerate cenvAny cinpQuota =
      (ClientOutcome.quotaExceeded,
       { llmCalled := false, imageCalled := false, savedRecord := none,
         usageWrite := none, localUsageCount := 20 }) :=
  quota_rejection_blocks_api_calls cenvAny cinpQuota (by decide)

/-- C6 counterexample: the implemented lookup takes the FIRST matching table
entry, not the longest match the spec describes.  On the source name
`Punch Guardian Nigeria` the code returns 88 (entry `Punch`, earlier in the
table) while the spec-modelled longest-match lookup returns 90
(entry `Guardian Nigeria`). -/
theorem reliability_lookup_not_longest_match :
    getReliabilityScore "Punch Guardian Nigeria" = 88 ∧
    getReliabilityScoreLongest "Punch Guardian Nigeria" = 90 ∧
    getReliabilityScore "Punch Guardian Nigeria" ≠
      getReliabilityScoreLongest "Punch Guardian Nigeria" := by
  refine ⟨rfl, rfl, by decide⟩

/-- C6 (amended): the reliability lookup returns the score of the first entry
in table-declaration order matched by bidirectional case-insensitive substring
containment, and 70 when no entry matches. -/
theorem reliability_first_match_lookup (n : String) :
    ((∀ e ∈ RELIABILITY_SCORES, matchesEntry n e = false) → getReliabilityScore n = 70) ∧
    (∀ (l1 l2 : List ReliabilityScore) (e : ReliabilityScore),
      RELIABILITY_SCORES = l1 ++ e :: l2 →
      (∀ x ∈ l1, matchesEntry n x = false) →
      matchesEntry n e = true →
      getReliabilityScore n = e.score) := by
  constructor
  · intro hall
    unfold getReliabilityScore
    have hnone : RELIABILITY_SCORES.find? (fun s => matchesEntry n s) = none := by
      rw [List.find?_eq_none]
      intro x hx
      simp [hall x hx]
    rw [hnone]
  · intro l1 l2 e hsplit h1 h2
    unfold getReliabilityScore
    have key : ∀ (m : List ReliabilityScore), (∀ x ∈ m, matchesEntry n x = false) →
        List.find? (fun s => matchesEntry n s) (m ++ e :: l2) = some e := by
      intro m
      induction m with
      | nil =>
        intro _
        simp [List.find?_cons, h2]
      | cons a t ih =>
        intro hm
        have ha := hm a (by simp)
        simp only [List.cons_append, List.find?_cons, ha]
        exact ih (fun x hx => hm x (by simp [hx]))
    rw [hsplit, key l1 h1]

/-- Witness for the amended C6: a first-match hit (entry `The Cable`, already
preceded by one non-matching entry) and the no-match default. -/
theorem reliability_first_match_lookup_applied :
    getReliabilityScore "The Cable News" = 92 ∧ getReliabilityScore "Zebra Zone" = 70 := by
  constructor
  · exact (reliability_first_match_lookup "The Cable News").2
      (RELIABILITY_SCORES.take 1) (RELIABILITY_SCORES.drop 2)
      { name := "The Cable", score := 92,
        description := "Reliable real-time reporting and balanced views." }
      (by decide) (by decide) (by decide)
  · exact (reliability_first_match_lookup "Zebra Zone").1 (by decide)

/-- C7: the reliability lookup maps `Premium Times Nigeria` to 95 (substring
match against the canonical `Premium Times` entry) and the unrecognised
`Random Blog` to the default 70. -/
theorem reliability_scoring_examples :
    getReliabilityScore "Premium Times Nigeria" = 95 ∧
    getReliabilityScore "Random Blog" = 70 := ⟨rfl, rfl⟩

/-- C9: the active Supabase route does NOT implement an atomic upsert-add.
Each successful generation upserts the absolute value `snapshot + 1` computed
from the stale client-side counter snapshot.  Two concurrent generations by
the same user, both issued with snapshot 0, each attempt to write 1; applying
both writes leaves the stored counter at 1, losing an increment, while the
atomic `ON CONFLICT ... count = count + 1` rule of the legacy sqlite route
reaches 2 as the claim requires. -/
theorem usage_counter_increment_not_atomic :
    (handleGenerate cenvC9 cinpC9a).snd.usageWrite = some (clientUsageValue 0) ∧
    (handleGenerate cenvC9 cinpC9b).snd.usageWrite = some (clientUsageValue 0) ∧
    supabaseUsageUpsert (some (supabaseUsageUpsert (some 0) (clientUsageValue 0)))
      (clientUsageValue 0) = 1 ∧
    sqliteUsageUpsert (some (sqliteUsageUpsert (some 0))) = 2 :=
  ⟨rfl, rfl, rfl, rfl⟩

/-- C2: in a run where the gate fired and search returned a non-empty result
list, the response sources equal the retrieved sources restricted to the
model-returned relevant-id list, except that an empty intersection falls back
to exactly the first search hit; in every case the sources list is non-empty. -/
theorem sources_intersection_with_first_hit_fallback (env : Env) (inp : HandlerInput)
    (resp : HandlerResponse) (rs : List SearchResult)
    (hw : wantsSearch inp.prompt = true)
    (hs : inp.searchResult = Except.ok rs) (hrs : rs ≠ [])
    (h : (handler env inp).fst = Except.ok resp) :
    (∀ ids, resp.relevantSourceIds = some ids →
      resp.sources =
        (if (mkSources env rs).filter (fun s => ids.contains s.id) = []
         then (mkSources env rs).take 1
         else (mkSources env rs).filter (fun s => ids.contains s.id))) ∧
    resp.sources ≠ [] := by
  have hsrc := handler_ok_sources env inp resp h
  have hret : retrievedSources env inp.searchResult inp.prompt = mkSources env rs := by
    rw [hs]
    exact retrievedSources_of_ok env rs inp.prompt hw
  constructor
  · intro ids hids
    rw [hsrc, hret, hids, reconcileSources_some]
  · rw [hsrc, hret]
    exact reconcileSources_ne_nil _ _ (mkSources_ne_nil env rs hrs)

/-- Witness for C2 on a two-hit search where the model cites hit 1 only. -/
theorem sources_intersection_with_first_hit_fallback_applied :
    (∀ ids, respC2.relevantSourceIds = some ids →
      respC2.sources =
        (if (mkSources envC2 rsC2).filter (fun s => ids.contains s.id) = []
         then (mkSources envC2 rsC2).take 1
         else (mkSources envC2 rsC2).filter (fun s => ids.contains s.id))) ∧
    respC2.sources ≠ [] :=
  sources_intersection_with_first_hit_fallback envC2 inpC2 respC2 rsC2 rfl rfl
    (by decide) rfl

/-- C10: every successful handler response carries a sources list that is an
order-preserving, duplicate-free sublist of the retrieved search-derived
source list, with length bounded by the number of retrieved search results. -/
theorem returned_sources_order_preserving_sublist (env : Env) (inp : HandlerInput)
    (resp : HandlerResponse) (h : (handler env inp).fst = Except.ok resp) :
    List.Sublist resp.sources (retrievedSources env inp.searchResult inp.prompt) ∧
    resp.sources.Nodup ∧
    resp.sources.length ≤ (retrievedSources env inp.searchResult inp.prompt).length ∧
    (∀ rs, wantsSearch inp.prompt = true → inp.searchResult = Except.ok rs →
      resp.sources.length ≤ rs.length) := by
  have hsrc := handler_ok_sources env inp resp h
  have hsub : List.Sublist resp.sources (retrievedSources env inp.searchResult inp.prompt) := by
    rw [hsrc]
    exact reconcileSources_sublist _ _
  refine ⟨hsub, ?_, ?_, ?_⟩
  · exact List.Nodup.sublist hsub (retrievedSources_nodup env inp.searchResult inp.prompt)
  · exact List.Sublist.length_le hsub
  · intro rs hw hs
    have hlen := List.Sublist.length_le hsub
    rw [hs, retrievedSources_of_ok env rs inp.prompt hw, mkSources_length] at hlen
    exact hlen

/-- Witness for C10 on a concrete single-hit run. -/
theorem returned_sources_order_preserving_sublist_applied :
    List.Sublist respC10.sources (retrievedSources envC10 inpC10.searchResult inpC10.prompt) ∧
    respC10.sources.Nodup ∧
    respC10.sources.length ≤ (retrievedSources envC10 inpC10.searchResult inpC10.prompt).length ∧
    (∀ rs, wantsSearch inpC10.prompt = true → inpC10.searchResult = Except.ok rs →
      respC10.sources.length ≤ rs.length) :=
  returned_sources_order_preserving_sublist envC10 inpC10 respC10 rfl

/-- C3: a completion-step failure — the completion call throwing, or its
content failing to parse as JSON — fails the whole operation with the reported
error on both pipelines: the handler returns the 500 error (no record, image
never called), and the client ends in the failed state with nothing saved, no
usage write, and the local counter unchanged. -/
theorem completion_failure_aborts_without_side_effects :
    (∀ (env : Env) (inp : HandlerInput) (e : String),
       (inp.groqKey.isNone || inp.tavilyKey.isNone) = false →
       inp.llmResult = Except.error e →
       handler env inp =
         (Except.error e,
          { searchCalled := wantsSearch inp.prompt, llmCalled := true,
            imageCalled := false })) ∧
    (∀ (env : Env) (inp : HandlerInput) (c? : Option String) (e : String),
       (inp.groqKey.isNone || inp.tavilyKey.isNone) = false →
       inp.llmResult = Except.ok c? →
       env.jsonParse (jsOrDefault c? "\x7b\x7d") = Except.error e →
       handler env inp =
         (Except.error e,
          { searchCalled := wantsSearch inp.prompt, llmCalled := true,
            imageCalled := false })) ∧
    (∀ (cenv : ClientEnv) (cinp : ClientInput) (e : String),
       cinp.usageCount < DAILY_LIMIT →
       cinp.llmResult = Except.error e →
       handleGenerate cenv cinp =
         (ClientOutcome.failed,
          { llmCalled := true, imageCalled := false, savedRecord := none,
            usageWrite := none, localUsageCount := cinp.usageCount })) ∧
    (∀ (cenv : ClientEnv) (cinp : ClientInput) (c? : Option String) (e : String),
       cinp.usageCount < DAILY_LIMIT →
       cinp.llmResult = Except.ok c? →
       cenv.jsonParse (jsOrDefault c? "\x7b\x7d") = Except.error e →
       handleGenerate cenv cinp =
         (ClientOutcome.failed,
          { llmCalled := true, imageCalled := false, savedRecord := none,
            usageWrite := none, localUsageCount := cinp.usageCount })) := by
  refine ⟨?_, ?_, ?_, ?_⟩
  · intro env inp e hk hl
    unfold handler
    rw [if_neg (by simp [hk]), hl]
  · intro env inp c? e hk hl hp
    unfold handler
    rw [if_neg (by simp [hk]), hl]
    simp [hp]
  · intro cenv cinp e hlt hl
    unfold handleGenerate
    rw [if_neg (by omega), hl]
  · intro cenv cinp c? e hlt hl hp
    unfold handleGenerate
    rw [if_neg (by omega), hl]
    simp [hp]

/-- Witness for C3: a handler run whose completion call throws, and a client
run whose completion content is unparseable. -/
theorem completion_failure_aborts_without_side_effects_applied :
    handler envEmptyObj inpC3 =
      (Except.error "llm down",
       { searchCalled := false, llmCalled := true, imageCalled := false }) ∧
    handleGenerate cenvAny cinpC3 =
      (ClientOutcome.failed,
       { llmCalled := true, imageCalled := false, savedRecord := none,
         usageWrite := none, localUsageCount := 0 }) := by
  constructor
  · exact completion_failure_aborts_without_side_effects.1 envEmptyObj inpC3
      "llm down" rfl rfl
  · exact completion_failure_aborts_without_side_effects.2.2.2 cenvAny cinpC3
      (some "BAD") "parse error" (by decide) rfl rfl

/-- C4 counterexample: when the completion returns malformed JSON, the parse
failure does NOT degrade to a placeholder record — it propagates to the outer
catch and the whole request aborts with the reported error, so no record of
any kind is returned. -/
theorem parse_failure_aborts_request :
    envEmptyObj.jsonParse "not json" = Except.error "parse error" ∧
    (handler envEmptyObj inpC4).fst = Except.error "parse error" := ⟨rfl, rfl⟩

/-- C4 (amended): on both pipelines a missing field in successfully parsed
model output never aborts — the serverless handler passes absent fields
through as absent and degrades the image URL via the seeded placeholder path,
and the client pipeline still produces a success record with the absent fields
passed through — while an outright JSON parse failure aborts the whole request
with a reported error on both pipelines. -/
theorem parse_soft_and_hard_failure_behaviour :
    (∀ (env : Env) (inp : HandlerInput) (c? : Option String) (data : ModelData),
       (inp.groqKey.isNone || inp.tavilyKey.isNone) = false →
       inp.llmResult = Except.ok c? →
       env.jsonParse (jsOrDefault c? "\x7b\x7d") = Except.ok data →
       ∃ resp, (handler env inp).fst = Except.ok resp ∧
         resp.title = data.title ∧ resp.excerpt = data.excerpt ∧
         resp.content = data.content ∧
         resp.imageUrl = imageUrlOf env inp.geminiKey inp.imgResult data.title) ∧
    (∀ (env : Env) (inp : HandlerInput) (c? : Option String) (e : String),
       (inp.groqKey.isNone || inp.tavilyKey.isNone) = false →
       inp.llmResult = Except.ok c? →
       env.jsonParse (jsOrDefault c? "\x7b\x7d") = Except.error e →
       (handler env inp).fst = Except.error e) ∧
    (∀ (cenv : ClientEnv) (cinp : ClientInput) (c? : Option String) (data : ClientData),
       cinp.usageCount < DAILY_LIMIT →
       cinp.llmResult = Except.ok c? →
       cenv.jsonParse (jsOrDefault c? "\x7b\x7d") = Except.ok data →
       ∃ r, (handleGenerate cenv cinp).fst = ClientOutcome.success r ∧
         r.title = data.title ∧ r.excerpt = data.excerpt ∧
         r.content = data.content) ∧
    (∀ (cenv : ClientEnv) (cinp : ClientInput) (c? : Option String) (e : String),
       cinp.usageCount < DAILY_LIMIT →
       cinp.llmResult = Except.ok c? →
       cenv.jsonParse (jsOrDefault c? "\x7b\x7d") = Except.error e →
       (handleGenerate cenv cinp).fst = ClientOutcome.failed) := by
  refine ⟨?_, ?_, ?_, ?_⟩
  · intro env inp c? data hk hl hp
    refine ⟨{ title := data.title, excerpt := data.excerpt, content := data.content,
              relevantSourceIds := data.relevantSourceIds,
              sources := reconcileSources
                (retrievedSources env inp.searchResult inp.prompt) data.relevantSourceIds,
              imageUrl := imageUrlOf env inp.geminiKey inp.imgResult data.title },
            ?_, rfl, rfl, rfl, rfl⟩
    unfold handler
    rw [if_neg (by simp [hk]), hl]
    simp [hp]
  · intro env inp c? e hk hl hp
    unfold handler
    rw [if_neg (by simp [hk]), hl]
    simp [hp]
  · intro cenv cinp c? data hlt hl hp
    have hnq : ¬ (cinp.usageCount ≥ DAILY_LIMIT) := by omega
    unfold handleGenerate
    rw [if_neg hnq, hl]
    simp [hp]
  · intro cenv cinp c? e hlt hl hp
    unfold handleGenerate
    rw [if_neg (by omega), hl]
    simp [hp]

/-- Witness for the amended C4: on both pipelines, null completion content
parses as the empty object and the run still succeeds with every field absent,
while malformed client completion content fails the client run. -/
theorem parse_soft_and_hard_failure_behaviour_applied :
    (∃ resp, (handler envEmptyObj inpC4w).fst = Except.ok resp ∧
      resp.title = none ∧ resp.excerpt = none ∧ resp.content = none ∧
      resp.imageUrl = imageUrlOf envEmptyObj inpC4w.geminiKey inpC4w.imgResult none) ∧
    (∃ r, (handleGenerate cenvEmptyObj cinpC4w).fst = ClientOutcome.success r ∧
      r.title = none ∧ r.excerpt = none ∧ r.content = none) ∧
    (handleGenerate cenvEmptyObj cinpC4bad).fst = ClientOutcome.failed := by
  refine ⟨?_, ?_, ?_⟩
  · exact parse_soft_and_hard_failure_behaviour.1 envEmptyObj inpC4w none
      { title := none, excerpt := none, content := none, relevantSourceIds := none }
      rfl rfl rfl
  · exact parse_soft_and_hard_failure_behaviour.2.2.1 cenvEmptyObj cinpC4w none
      { title := none, excerpt := none, content := none, sources := none }
      (by decide) rfl rfl
  · exact parse_soft_and_hard_failure_behaviour.2.2.2 cenvEmptyObj cinpC4bad
      (some "BAD") "parse error" (by decide) rfl rfl

/-- C5 counterexample: the search gate is a substring test on the composed
prompt, so a request whose explicit free-text guidance is `latest news` (a
non-empty guidance) still fires the search step. -/
theorem guidance_with_phrase_still_triggers_search :
    ("latest news" : String) ≠ "" ∧
    wantsSearch (buildPrompt "latest news" GenerationType.social Category.Technology) = true ∧
    (handler envEmptyObj inpC5cx).snd.searchCalled = true := by
  refine ⟨by decide, rfl, rfl⟩

/-- C5 (amended): whenever the composed prompt does not contain the phrases
the gate tests for — in particular for guidance that avoids them, as guidance
requests use a template without the phrase — no search call is made and any
record produced carries an empty sources list. -/
theorem search_skipped_iff_prompt_lacks_phrase (env : Env) (inp : HandlerInput)
    (hw : wantsSearch inp.prompt = false) :
    (handler env inp).snd.searchCalled = false ∧
    (∀ resp, (handler env inp).fst = Except.ok resp → resp.sources = []) := by
  constructor
  · by_cases hk : (inp.groqKey.isNone || inp.tavilyKey.isNone) = true
    · unfold handler
      rw [if_pos hk]
    · unfold handler
      rw [if_neg hk]
      rcases hl : inp.llmResult with e | c?
      · simp [hw]
      · rcases hp : env.jsonParse (jsOrDefault c? "\x7b\x7d") with e | data <;> simp [hp, hw]
  · intro resp hresp
    rw [handler_ok_sources env inp resp hresp,
        retrievedSources_of_off env inp.searchResult inp.prompt hw,
        reconcileSources_nil]

/-- Witness for the amended C5: the spec scenario guidance
`new telecom tariffs` composes to a prompt without the phrase, so the search
step is skipped and the sources come out empty. -/
theorem search_skipped_iff_prompt_lacks_phrase_applied :
    (handler envEmptyObj inpC5w).snd.searchCalled = false ∧
    (∀ resp, (handler envEmptyObj inpC5w).fst = Except.ok resp → resp.sources = []) :=
  search_skipped_iff_prompt_lacks_phrase envEmptyObj inpC5w (by decide)

/-- C8 counterexample: in the client-direct pipeline an image-step failure
does not fall back to a title-seeded placeholder URL — the record is produced
with an empty image field. -/
theorem client_image_failure_leaves_empty_image :
    handleGenerate cenvC8 cinpC8 =
      (ClientOutcome.success recC8,
       { llmCalled := true, imageCalled := true, savedRecord := some recC8,
         usageWrite := some 1, localUsageCount := 1 }) ∧
    recC8.imageUrl = "" ∧
    recC8.imageUrl ≠ "https://picsum.photos/seed/Abc/1200/630" := by
  refine ⟨rfl, rfl, by decide⟩

/-- C8 (amended): once the completion step succeeds, an image-step failure
(missing key, no inline image, or an exception) never fails the request.  The
serverless handler falls back to the deterministic picsum placeholder seeded
by the title, with no assumption on the search outcome (search may have failed
too); the client-direct pipeline still produces the record but with an empty
image field. -/
theorem image_failure_never_fails_request :
    (∀ (env : Env) (inp : HandlerInput) (c? : Option String) (data : ModelData),
       (inp.groqKey.isNone || inp.tavilyKey.isNone) = false →
       inp.llmResult = Except.ok c? →
       env.jsonParse (jsOrDefault c? "\x7b\x7d") = Except.ok data →
       (inp.geminiKey = none ∨ inp.imgResult = Except.ok none ∨
        (∃ e, inp.imgResult = Except.error e)) →
       ∃ resp, (handler env inp).fst = Except.ok resp ∧
         resp.imageUrl = picsumUrl env data.title) ∧
    (∀ (cenv : ClientEnv) (cinp : ClientInput) (c? : Option String) (data : ClientData),
       cinp.usageCount < DAILY_LIMIT →
       cinp.llmResult = Except.ok c? →
       cenv.jsonParse (jsOrDefault c? "\x7b\x7d") = Except.ok data →
       (cinp.imgResult = Except.ok none ∨ (∃ e, cinp.imgResult = Except.error e)) →
       ∃ r, (handleGenerate cenv cinp).fst = ClientOutcome.success r ∧
         r.imageUrl = "") := by
  constructor
  · intro env inp c? data hk hl hp himg
    refine ⟨{ title := data.title, excerpt := data.excerpt, content := data.content,
              relevantSourceIds := data.relevantSourceIds,
              sources := reconcileSources
                (retrievedSources env inp.searchResult inp.prompt) data.relevantSourceIds,
              imageUrl := imageUrlOf env inp.geminiKey inp.imgResult data.title },
            ?_, ?_⟩
    · unfold handler
      rw [if_neg (by simp [hk]), hl]
      simp [hp]
    · rcases himg with hgem | hnone | ⟨e, herr⟩
      · simp [imageUrlOf, hgem]
      · cases hg : inp.geminiKey <;> simp [imageUrlOf, hg, hnone]
      · cases hg : inp.geminiKey <;> simp [imageUrlOf, hg, herr]
  · intro cenv cinp c? data hlt hl hp himg
    have hnq : ¬ (cinp.usageCount ≥ DAILY_LIMIT) := by omega
    refine ⟨{ id := cinp.newId, title := data.title, excerpt := data.excerpt,
              content := data.content, type := cinp.genType, category := cinp.category,
              imageUrl := "",
              sources := (data.sources.getD []).map
                (fun s => { name := s.name, url := s.url,
                            reliabilityScore := getReliabilityScore s.name }),
              timestamp := cinp.now }, ?_, rfl⟩
    unfold handleGenerate
    rw [if_neg hnq, hl]
    rcases himg with hnone | ⟨e, herr⟩
    · simp [hp, hnone]
    · simp [hp, herr]

/-- Witness for the amended C8: a handler run where search AND image both
fail while completion succeeds still returns a record whose image is the
title-seeded placeholder, and a client run with a failed image step returns a
record with an empty image field. -/
theorem image_failure_never_fails_request_applied :
    inpC8w.searchResult = Except.error "search down" ∧
    (∃ resp, (handler envC8w inpC8w).fst = Except.ok resp ∧
      resp.imageUrl = picsumUrl envC8w (some "Abc")) ∧
    (∃ r, (handleGenerate cenvC8 cinpC8w).fst = ClientOutcome.success r ∧
      r.imageUrl = "") := by
  refine ⟨rfl, ?_, ?_⟩
  · exact image_failure_never_fails_request.1 envC8w inpC8w (some "RAW") dataC8s
      rfl rfl rfl (Or.inr (Or.inr ⟨"img down", rfl⟩))
  · exact image_failure_never_fails_request.2 cenvC8 cinpC8w (some "RAW") cdataC8
      (by decide) rfl rfl (Or.inl rfl)

end TrendsBox

